import Mathlib

/-!
# Verification of the cockpit oracle-bootloader core

Shallow embedding of the serial bootloader test oracle
(`tests/oracle_bootloader/lib/protocol_client.py`,
`frame_parser_universal.py`, `error_injector.py`, `scenario_runner.py`).

Bytes are modelled as `Nat` values below 256; machine-integer overflow in
the checksum loops is rendered by explicit masking with `&&& 0xFFFF` /
`&&& 0xFFFFFFFF`, exactly where the Python source masks.  The serial byte
stream is a `List Nat` consumed front to back: a read that the hardware
would time out on is a read past the end of the list.  Wall-clock delays
(`time.sleep`) have no observable effect in the embedding and are elided.
-/

namespace Cockpit

/-- Big-endian 16-bit encoding, `struct.pack` with format `>H`:
for `n < 65536` this is the two-byte big-endian encoding. -/
def be16 (n : Nat) : List Nat := [n / 256 % 256, n % 256]

/-- Read one byte from the stream (`serial.read(1)` that found a byte);
`none` models a timeout on an exhausted stream. -/
def read1 : List Nat → Option (Nat × List Nat)
  | [] => none
  | a :: rest => some (a, rest)

/-- Read exactly two bytes, as the length / CRC field reads do;
`none` models the `len(x) != 2` short-read failure. -/
def read2 : List Nat → Option (Nat × Nat × List Nat)
  | a :: b :: rest => some (a, b, rest)
  | _ => none

/-- Read exactly `n` bytes; `none` models a short read (timeout). -/
def readN (n : Nat) (s : List Nat) : Option (List Nat × List Nat) :=
  if n ≤ s.length then some (s.take n, s.drop n) else none

/-- Whether `needle` occurs at the head of `hay`. -/
def bytesLead : List Nat → List Nat → Bool
  | [], _ => true
  | _ :: _, [] => false
  | a :: as, b :: bs => a == b && bytesLead as bs

/-- Python `needle in hay` on byte strings: contiguous substring test. -/
def bytesHasSub (needle : List Nat) : List Nat → Bool
  | [] => bytesLead needle []
  | b :: bs => bytesLead needle (b :: bs) || bytesHasSub needle bs

/-! ## Checksum engine (`CRC16Calculator`, `ProtocolClient._calculate_crc32`) -/

/-- One bit step of the CRC16-CCITT loop body in
`CRC16Calculator.calculate_crc16_ccitt`: shift left, conditionally XOR
the polynomial `0x1021`, then mask to 16 bits (`crc &= 0xFFFF`). -/
def crc16_bit (crc : Nat) : Nat :=
  (if crc &&& 0x8000 ≠ 0 then (crc <<< 1) ^^^ 0x1021 else crc <<< 1) &&& 0xFFFF

/-- One byte step: XOR the byte into the high byte of the running CRC,
then run the bit step eight times. -/
def crc16_byte (crc b : Nat) : Nat := crc16_bit^[8] (crc ^^^ (b <<< 8))

/-- Embedding of `CRC16Calculator.calculate_crc16_ccitt`: init `0xFFFF`, then the byte
step over the data. -/
def calculate_crc16_ccitt (data : List Nat) : Nat :=
  data.foldl crc16_byte 0xFFFF

/-- Embedding of `CRC16Calculator.calculate_frame_crc16`: CRC16 over
`struct.pack with format >H applied to length`, concatenated with the payload. -/
def calculate_frame_crc16 (length : Nat) (payload : List Nat) : Nat :=
  calculate_crc16_ccitt (be16 length ++ payload)

/-- One bit step of `ProtocolClient._calculate_crc32`: if the LSB is set,
shift right and XOR the reflected polynomial `0xEDB88320`, else shift. -/
def crc32_bit (crc : Nat) : Nat :=
  if crc &&& 1 ≠ 0 then (crc >>> 1) ^^^ 0xEDB88320 else crc >>> 1

/-- One byte step: XOR the byte into the CRC, then eight bit steps. -/
def crc32_byte (crc b : Nat) : Nat := crc32_bit^[8] (crc ^^^ b)

/-- Embedding of `ProtocolClient._calculate_crc32`: init `0xFFFFFFFF`, byte steps, and
final `(~crc) & 0xFFFFFFFF`, which for the 32-bit running value equals
XOR with `0xFFFFFFFF`. -/
def calculate_crc32 (data : List Nat) : Nat :=
  (data.foldl crc32_byte 0xFFFFFFFF) ^^^ 0xFFFFFFFF

/-! ### Reference checksums, written from the spec text (§4.1)

These restate the spec's prose descriptions with an explicit bit counter,
to be compared against the source-embedded functions above. -/

/-- Spec reference, CRC16 inner loop: "shift left 8 times, XORing with the
polynomial whenever the top bit is set, masking to 16 bits after every
step" — explicit bit-count recursion. -/
def crc16_spec_bits : Nat → Nat → Nat
  | 0, crc => crc
  | n + 1, crc =>
      crc16_spec_bits n
        (if crc &&& 0x8000 ≠ 0 then ((crc <<< 1) ^^^ 0x1021) &&& 0xFFFF
         else (crc <<< 1) &&& 0xFFFF)

/-- Spec reference, CRC16 outer loop over the data bytes. -/
def crc16_spec_go : List Nat → Nat → Nat
  | [], crc => crc
  | b :: rest, crc => crc16_spec_go rest (crc16_spec_bits 8 (crc ^^^ (b <<< 8)))

/-- Spec reference `crc16_ccitt`: init `0xFFFF`, poly `0x1021`, MSB-first,
no reflection, no final XOR. -/
def crc16_spec (data : List Nat) : Nat := crc16_spec_go data 0xFFFF

/-- Spec reference, CRC32 inner loop: "for each of 8 bits, if LSB set,
shift right and XOR polynomial, else shift right". -/
def crc32_spec_bits : Nat → Nat → Nat
  | 0, crc => crc
  | n + 1, crc =>
      crc32_spec_bits n
        (if crc &&& 1 ≠ 0 then (crc >>> 1) ^^^ 0xEDB88320 else crc >>> 1)

/-- Spec reference, CRC32 outer loop over the data bytes. -/
def crc32_spec_go : List Nat → Nat → Nat
  | [], crc => crc
  | b :: rest, crc => crc32_spec_go rest (crc32_spec_bits 8 (crc ^^^ b))

/-- Spec reference `crc32_bootloader`: init `0xFFFFFFFF`, reflected poly
`0xEDB88320`, LSB-first, final bitwise NOT of the 32-bit running value. -/
def crc32_spec (data : List Nat) : Nat :=
  (crc32_spec_go data 0xFFFFFFFF) ^^^ 0xFFFFFFFF

/-! ## Frame builder (`FrameBuilder`) -/

/-- The per-byte body of the escaping loop in `FrameBuilder.build_frame`:
`0x7E`/`0x7F` become `0x7D, byte XOR 0x20`; the escape byte `0x7D`
becomes `0x7D, 0x7D XOR 0x20`; everything else passes through. -/
def escapeBytes : List Nat → List Nat
  | [] => []
  | b :: rest =>
      (if b = 0x7E ∨ b = 0x7F then [0x7D, b ^^^ 0x20]
       else if b = 0x7D then [0x7D, 0x7D ^^^ 0x20]
       else [b]) ++ escapeBytes rest

/-- Embedding of `FrameBuilder.build_frame`: rejects payloads over 1024 bytes with a
`ValueError` (modelled as `Except.error`), otherwise emits
`START | LENGTH(2) | escaped PAYLOAD | CRC16(2) | END` where the CRC is
computed over the big-endian length and the unescaped payload. -/
def build_frame (payload : List Nat) : Except String (List Nat) :=
  if payload.length > 1024 then
    .error ("Payload too large: " ++ toString payload.length ++ " > 1024")
  else
    .ok ([0x7E] ++ be16 payload.length ++ escapeBytes payload ++
         be16 (calculate_frame_crc16 payload.length payload) ++ [0x7F])

/-- The frame bytes `build_frame` produces on an accepted payload. -/
def frameOf (payload : List Nat) : List Nat :=
  [0x7E] ++ be16 payload.length ++ escapeBytes payload ++
    be16 (calculate_frame_crc16 payload.length payload) ++ [0x7F]

/-- Embedding of `FrameBuilder.corrupt_frame_crc`: frames shorter than 6 bytes are
returned unchanged; otherwise the byte at index `length - 3` (the CRC
high byte, Python index `-3`) is XORed with `0xFF`. -/
def corrupt_frame_crc (frame : List Nat) : List Nat :=
  if frame.length < 6 then frame
  else frame.set (frame.length - 3) (frame.getD (frame.length - 3) 0 ^^^ 0xFF)

/-! ### Spec-shaped frame encoding (§4.2), for comparison with the source -/

/-- Escape transform as the spec words it: each byte equal to `0x7E`,
`0x7F`, or `0x7D` is replaced by `0x7D` followed by the byte XOR `0x20`. -/
def escapeSpec : List Nat → List Nat
  | [] => []
  | b :: rest =>
      (if b = 0x7E ∨ b = 0x7F ∨ b = 0x7D then [0x7D, b ^^^ 0x20] else [b]) ++
        escapeSpec rest

/-- Frame layout as the spec words it:
`0x7E || length_be16 || escaped_payload || crc16_be16 || 0x7F` with the
CRC over `length_be16 || payload` unescaped. -/
def frameSpec (payload : List Nat) : List Nat :=
  [0x7E] ++ be16 payload.length ++ escapeSpec payload ++
    be16 (calculate_crc16_ccitt (be16 payload.length ++ payload)) ++ [0x7F]

/-! ## Frame decoding

Two decoders exist in the source: the inline read path of
`ProtocolClient.receive_response` and `UniversalFrameParser.parse_frame`.
Neither reverses the escape transform. -/

/-- The start-marker search loop of `ProtocolClient.receive_response`:
at most 32 read attempts (`while attempts < 32`), each consuming one
stream byte, stopping at `0x7E`.  The first argument is the remaining
attempt budget. -/
def findStart32 : Nat → List Nat → Option (List Nat)
  | _, [] => none
  | 0, _ :: _ => none
  | k + 1, b :: rest => if b = 0x7E then some rest else findStart32 k rest

/-- The field reads of `ProtocolClient.receive_response` after the start
marker: 2-byte big-endian length (≤ 1024), raw payload, 2-byte
big-endian CRC, end marker `0x7F`, then CRC validation over the
re-packed length and payload.  Every failure returns `none`, as the
Python returns `None`.  No unescaping is performed. -/
def receiveAfterStart (s1 : List Nat) : Option (List Nat) :=
  match read2 s1 with
  | none => none
  | some (lh, ll, s2) =>
    let payload_length := 256 * lh + ll
    if payload_length > 1024 then none
    else
      match readN payload_length s2 with
      | none => none
      | some (payload, s3) =>
        match read2 s3 with
        | none => none
        | some (ch, cl, s4) =>
          let received_crc := 256 * ch + cl
          match read1 s4 with
          | none => none
          | some (endb, _) =>
            if endb ≠ 0x7F then none
            else if received_crc ≠ calculate_frame_crc16 payload_length payload
            then none
            else some payload

/-- The frame read path of `ProtocolClient.receive_response` over a byte
stream: sync within at most 32 read attempts, then the field reads. -/
def receive_response (s : List Nat) : Option (List Nat) :=
  match findStart32 32 s with
  | none => none
  | some s1 => receiveAfterStart s1

/-- Embedding of `UniversalFrameParser.find_frame_start`: discard bytes until `0x7E`;
the only failure is the read timeout, modelled by stream exhaustion. -/
def findFrameStart : List Nat → Option (List Nat)
  | [] => none
  | b :: rest => if b = 0x7E then some rest else findFrameStart rest

/-- The distinct failure branches of `UniversalFrameParser.parse_frame`. -/
inductive ParseError
  | startNotFound
  | lengthFieldShort
  | lengthTooBig
  | payloadIncomplete
  | crcFieldShort
  | endFieldShort
  | endMarkerMismatch
  | crcMismatch
  deriving DecidableEq, Repr

/-- The field reads of `UniversalFrameParser.parse_frame` after the
start marker.  Note the `if not payload` guard in the source: a
zero-length payload read yields the empty byte string, which is falsy,
so a frame with length 0 is rejected as an incomplete payload.  The CRC
is validated over the raw length bytes concatenated with the payload.
No unescaping is performed. -/
def parseAfterStart (s1 : List Nat) : Except ParseError (List Nat) :=
  match read2 s1 with
  | none => .error .lengthFieldShort
  | some (lh, ll, s2) =>
    let payload_length := 256 * lh + ll
    if payload_length > 1024 then .error .lengthTooBig
    else
      match readN payload_length s2 with
      | none => .error .payloadIncomplete
      | some (payload, s3) =>
        if payload.isEmpty then .error .payloadIncomplete
        else
          match read2 s3 with
          | none => .error .crcFieldShort
          | some (ch, cl, s4) =>
            let received_crc := 256 * ch + cl
            match read1 s4 with
            | none => .error .endFieldShort
            | some (endb, _) =>
              if endb ≠ 0x7F then .error .endMarkerMismatch
              else if received_crc ≠ calculate_crc16_ccitt ([lh, ll] ++ payload)
              then .error .crcMismatch
              else .ok payload

/-- Embedding of `UniversalFrameParser.parse_frame`: resync, then the field reads. -/
def parse_frame (s : List Nat) : Except ParseError (List Nat) :=
  match findFrameStart s with
  | none => .error .startNotFound
  | some s1 => parseAfterStart s1

/-! ## Protocol messages

The request/response envelopes of `bootloader_pb2`.  The structures
mirror the fields the client code sets and reads. -/

/-- Embedding of `bootloader_pb2.HandshakeRequest` fields set by the client. -/
structure HandshakeRequest where
  capabilities : String
  max_packet_size : Nat
  deriving DecidableEq, Repr

/-- Embedding of `bootloader_pb2.FlashProgramRequest` fields set by the client. -/
structure FlashProgramRequest where
  total_data_length : Nat
  verify_after_program : Bool
  deriving DecidableEq, Repr

/-- Embedding of `bootloader_pb2.DataPacket` fields set by the client. -/
structure DataPacket where
  offset : Nat
  data : List Nat
  data_crc32 : Nat
  deriving DecidableEq, Repr

/-- The request oneof of `bootloader_pb2.BootloaderRequest`. -/
inductive RequestOneof
  | handshake (h : HandshakeRequest)
  | flash_program (f : FlashProgramRequest)
  | data (d : DataPacket)
  deriving DecidableEq, Repr

/-- Embedding of `bootloader_pb2.BootloaderRequest` envelope. -/
structure BootloaderRequest where
  sequence_id : Nat
  request : RequestOneof
  deriving DecidableEq, Repr

/-- The response oneof of `bootloader_pb2.BootloaderResponse`
(`WhichOneof` result): a handshake response or an acknowledgement. -/
inductive ResponseOneof
  | handshake (bootloader_version supported_capabilities : String)
      (flash_page_size : Nat)
  | ack (success : Bool) (message : String)
  deriving DecidableEq, Repr

/-- Embedding of `bootloader_pb2.BootloaderResponse` envelope; `resp = none` models
`WhichOneof` returning `None`. -/
structure BootloaderResponse where
  sequence_id : Nat
  resp : Option ResponseOneof
  deriving DecidableEq, Repr

/-- The handshake request `ProtocolClient.execute_handshake` constructs:
fixed capabilities, `max_packet_size = 256`, `sequence_id = 1`. -/
def handshakeRequest : BootloaderRequest :=
  { sequence_id := 1
    request := .handshake
      { capabilities := "flash_program,verify,error_recovery"
        max_packet_size := 256 } }

/-- The prepare request of `execute_prepare_flash`:
`FlashProgramRequest` with `verify_after_program = False`, `sequence_id = 2`. -/
def prepareRequest (data_length : Nat) : BootloaderRequest :=
  { sequence_id := 2
    request := .flash_program
      { total_data_length := data_length, verify_after_program := false } }

/-- The data request of `execute_data_transfer`: offset 0, the payload
bytes, and their bootloader CRC32, `sequence_id = 3`. -/
def dataRequest (test_data : List Nat) : BootloaderRequest :=
  { sequence_id := 3
    request := .data
      { offset := 0, data := test_data
        data_crc32 := calculate_crc32 test_data } }

/-- The verify request of `execute_verify_flash`:
`total_data_length = getattr(self, staged_data_length, 256)` — the staged
length when the attribute is set, else the default 256 — with
`verify_after_program = True`, `sequence_id = 4`. -/
def verifyRequest (staged_data_length : Option Nat) : BootloaderRequest :=
  { sequence_id := 4
    request := .flash_program
      { total_data_length := staged_data_length.getD 256
        verify_after_program := true } }

/-! ## Protocol client operations

`ProtocolResult` is the uniform return type.  The `data` and
`error_code` diagnostic fields of the Python dataclass are not modelled;
no claim depends on them. -/

/-- Embedding of `ProtocolResult` (success flag and message). -/
structure ProtocolResult where
  success : Bool
  message : String
  deriving DecidableEq, Repr

/-- One request/response exchange's environment: the behavior of the
collaborators the client calls during the exchange.

Modelled from the spec: `SerializeToString` and `ParseFromString` are
generated protobuf code (the Message Codec of §4.3) not present under
`src/`; serialization is an environment-supplied total function and
parsing an environment-supplied fallible function, matching §4.3's
"Decode failures surface as a distinct MessageDecodeError".  `sendOk` is
the boolean outcome of `send_raw_frame` (transport write), `rx` the byte
stream available to `receive_response`, and `waiting` the
`serial_conn.in_waiting` count observed by `execute_data_transfer`. -/
structure Exchange where
  ser : BootloaderRequest → List Nat
  sendOk : Bool
  rx : List Nat
  parse : List Nat → Except String BootloaderResponse
  waiting : Nat

/-- A Python `try`/`except` block: run the body, mapping an uncaught
exception to the handler's result. -/
def tryE {α : Type} (body : Except String α) (handler : String → α) : α :=
  match body with
  | .ok a => a
  | .error e => handler e

/-- An operation outcome: the `ProtocolResult` plus the frames passed to
`send_raw_frame`, in order (the transmission trace). -/
abbrev OpOutcome := ProtocolResult × List (List Nat)

/-- The ASCII bytes of `VERIFY_SUCCESS`. -/
def asciiVerifySuccess : List Nat :=
  [0x56, 0x45, 0x52, 0x49, 0x46, 0x59, 0x5F, 0x53, 0x55, 0x43, 0x43, 0x45, 0x53, 0x53]

/-- The ASCII bytes of `HANDSHAKE_RESPONSE`. -/
def asciiHandshakeResponse : List Nat :=
  [0x48, 0x41, 0x4E, 0x44, 0x53, 0x48, 0x41, 0x4B, 0x45, 0x5F,
   0x52, 0x45, 0x53, 0x50, 0x4F, 0x4E, 0x53, 0x45]

/-- Body of the `try` block of `execute_handshake`: build and send the
frame, receive, parse; on a parse error fall back to the legacy
`HANDSHAKE_RESPONSE` substring check.  The response `sequence_id` is
never consulted. -/
def handshakeBody (e : Exchange) (payload : List Nat) :
    Except String OpOutcome :=
  match build_frame payload with
  | .error msg => .error msg
  | .ok frame =>
    if ¬ e.sendOk then
      .ok (⟨false, "Failed to send handshake frame"⟩, [frame])
    else
      match receive_response e.rx with
      | none => .ok (⟨false, "Failed to receive handshake response"⟩, [frame])
      | some response_payload =>
        match e.parse response_payload with
        | .ok resp =>
          match resp.resp with
          | some (.handshake _ _ _) =>
              .ok (⟨true, "Handshake completed"⟩, [frame])
          | some (.ack _ _) =>
              .ok (⟨false, "Unexpected response type: ack"⟩, [frame])
          | none =>
              .ok (⟨false, "Unexpected response type: None"⟩, [frame])
        | .error parse_error =>
          if bytesHasSub asciiHandshakeResponse response_payload then
            .ok (⟨true, "Handshake completed"⟩, [frame])
          else
            .ok (⟨false, "Invalid handshake response: " ++ parse_error⟩, [frame])

/-- Embedding of `ProtocolClient.execute_handshake`: request construction and
serialization happen before the `try` block (and cannot fail in the
model); everything fallible is inside it. -/
def execute_handshake (e : Exchange) : Except String OpOutcome :=
  let payload := e.ser handshakeRequest
  .ok (tryE (handshakeBody e payload)
    (fun err => (⟨false, "Handshake error: " ++ err⟩, [])))

/-- Body of the `try` block of `execute_prepare_flash`. -/
def prepareBody (e : Exchange) (payload : List Nat) :
    Except String OpOutcome :=
  match build_frame payload with
  | .error msg => .error msg
  | .ok frame =>
    if ¬ e.sendOk then
      .ok (⟨false, "Failed to send prepare frame"⟩, [frame])
    else
      match receive_response e.rx with
      | none => .ok (⟨false, "Failed to receive prepare response"⟩, [frame])
      | some response_payload =>
        match e.parse response_payload with
        | .ok resp =>
          match resp.resp with
          | some (.ack true _) =>
              .ok (⟨true, "Prepare phase completed"⟩, [frame])
          | some (.ack false m) =>
              .ok (⟨false, "Prepare failed: " ++ m⟩, [frame])
          | some (.handshake _ _ _) =>
              .ok (⟨false, "Unexpected prepare response type: handshake"⟩, [frame])
          | none =>
              .ok (⟨false, "Unexpected prepare response type: None"⟩, [frame])
        | .error parse_error =>
            .ok (⟨false, "Invalid prepare response: " ++ parse_error⟩, [frame])

/-- Embedding of `ProtocolClient.execute_prepare_flash`: request construction and
serialization before the `try` block, the rest inside it. -/
def execute_prepare_flash (data_length : Nat) (e : Exchange) :
    Except String OpOutcome :=
  let payload := e.ser (prepareRequest data_length)
  .ok (tryE (prepareBody e payload)
    (fun err => (⟨false, "Prepare error: " ++ err⟩, [])))

/-- Embedding of `ProtocolClient.decode_leftover_data` on the bytes read from the
input buffer.  When the first two bytes are `SG` but there is no third
byte, the f-string indexing `diagnostic_chars[2]` raises `IndexError`
(modelled as `Except.error`); otherwise the method returns a failed
`ProtocolResult` whose message contains literal braces. -/
def decode_leftover_data (response_payload : List Nat) :
    Except String ProtocolResult :=
  if response_payload = [0x53, 0x47, 0x48] then
    .ok ⟨false, "Leftover \x7bbytes_decoded\x7d bytes decoded"⟩
  else if response_payload.take 2 = [0x53, 0x47] then
    if response_payload.length < 3 then .error "IndexError: list index out of range"
    else .ok ⟨false, "Leftover \x7bbytes_decoded\x7d bytes decoded"⟩
  else .ok ⟨false, "Leftover \x7bbytes_decoded\x7d bytes decoded"⟩

/-- Body of the `try` block of `execute_data_transfer`: build and send,
then — when `in_waiting` reports pending bytes — consume them through
`decode_leftover_data` before receiving the response. -/
def dataBody (e : Exchange) (payload : List Nat) :
    Except String OpOutcome :=
  match build_frame payload with
  | .error msg => .error msg
  | .ok frame =>
    if ¬ e.sendOk then
      .ok (⟨false, "Failed to send data frame"⟩, [frame])
    else
      match
        (if e.waiting > 0 then decode_leftover_data (e.rx.take e.waiting)
         else .ok ⟨false, ""⟩) with
      | .error msg => .error msg
      | .ok _ =>
        match receive_response
            (if e.waiting > 0 then e.rx.drop e.waiting else e.rx) with
        | none => .ok (⟨false, "Failed to receive data response"⟩, [frame])
        | some response_payload =>
          match e.parse response_payload with
          | .ok resp =>
            match resp.resp with
            | some (.ack true _) =>
                .ok (⟨true, "Data transfer completed"⟩, [frame])
            | some (.ack false m) =>
                .ok (⟨false, "Data transfer failed: " ++ m⟩, [frame])
            | some (.handshake _ _ _) =>
                .ok (⟨false, "Unexpected data response type: handshake"⟩, [frame])
            | none =>
                .ok (⟨false, "Unexpected data response type: None"⟩, [frame])
          | .error parse_error =>
              .ok (⟨false, "Invalid data response: " ++ parse_error⟩, [frame])

/-- Embedding of `ProtocolClient.execute_data_transfer`: the `DataPacket` (including
its CRC32) and its serialization are built before the `try` block. -/
def execute_data_transfer (test_data : List Nat) (e : Exchange) :
    Except String OpOutcome :=
  let payload := e.ser (dataRequest test_data)
  .ok (tryE (dataBody e payload)
    (fun err => (⟨false, "Data transfer error: " ++ err⟩, [])))

/-- Body of the `try` block of `execute_verify_flash`: in this method the
request construction and serialization are themselves inside the `try`.
Success is decided by a `VERIFY_SUCCESS` substring test on the received
payload — the protobuf response is never parsed. -/
def verifyBody (e : Exchange) (staged_data_length : Option Nat) :
    Except String OpOutcome :=
  match build_frame (e.ser (verifyRequest staged_data_length)) with
  | .error msg => .error msg
  | .ok frame =>
    if ¬ e.sendOk then
      .ok (⟨false, "Failed to send FlashProgramRequest"⟩, [frame])
    else
      match receive_response e.rx with
      | none => .ok (⟨false, "Failed to receive verify response"⟩, [frame])
      | some response_payload =>
        if bytesHasSub asciiVerifySuccess response_payload then
          .ok (⟨true, "Verification completed"⟩, [frame])
        else
          .ok (⟨false, "Flash verification failed"⟩, [frame])

/-- Embedding of `ProtocolClient.execute_verify_flash`. -/
def execute_verify_flash (staged_data_length : Option Nat) (e : Exchange) :
    Except String OpOutcome :=
  .ok (tryE (verifyBody e staged_data_length)
    (fun err => (⟨false, "Verify error: " ++ err⟩, [])))

/-- Embedding of `ProtocolClient.execute_complete_protocol`: the four phases strictly
in order, stopping at the first failure; there is no `try` block of its
own, so any exception of a phase would propagate. -/
def execute_complete_protocol (test_data : List Nat)
    (staged_data_length : Option Nat) (e1 e2 e3 e4 : Exchange) :
    Except String OpOutcome :=
  match execute_handshake e1 with
  | .error msg => .error msg
  | .ok (r1, s1) =>
    if ¬ r1.success then
      .ok (⟨false, "Handshake failed: " ++ r1.message⟩, s1)
    else
      match execute_prepare_flash test_data.length e2 with
      | .error msg => .error msg
      | .ok (r2, s2) =>
        if ¬ r2.success then
          .ok (⟨false, "Prepare failed: " ++ r2.message⟩, s1 ++ s2)
        else
          match execute_data_transfer test_data e3 with
          | .error msg => .error msg
          | .ok (r3, s3) =>
            if ¬ r3.success then
              .ok (⟨false, "Data transfer failed: " ++ r3.message⟩, s1 ++ s2 ++ s3)
            else
              match execute_verify_flash staged_data_length e4 with
              | .error msg => .error msg
              | .ok (r4, s4) =>
                if ¬ r4.success then
                  .ok (⟨false, "Verify failed: " ++ r4.message⟩,
                       s1 ++ s2 ++ s3 ++ s4)
                else
                  .ok (⟨true, "Complete protocol sequence successful"⟩,
                       s1 ++ s2 ++ s3 ++ s4)

/-! ## Fault injector (`ErrorInjector`) -/

/-- The handshake request `inject_crc_frame_corruption` constructs
itself (same field values as the client's, `sequence_id = 1`). -/
def injectorHandshakeRequest : BootloaderRequest :=
  { sequence_id := 1
    request := .handshake
      { capabilities := "flash_program,verify,error_recovery"
        max_packet_size := 256 } }

/-- Embedding of `ErrorInjector.inject_timeout_session`: handshake, wait (elided),
then prepare with length 256; success means the late prepare was
rejected.  `e1` is the handshake exchange, `e2` the prepare exchange. -/
def inject_timeout_session (e1 e2 : Exchange) : Except String OpOutcome :=
  .ok (tryE
    (match execute_handshake e1 with
     | .error msg => .error msg
     | .ok (hr, s1) =>
       if ¬ hr.success then
         .ok (⟨false, "Failed to establish session for timeout test: "
                        ++ hr.message⟩, s1)
       else
         match execute_prepare_flash 256 e2 with
         | .error msg => .error msg
         | .ok (pr, s2) =>
           if pr.success then
             .ok (⟨false, "Session timeout did not occur as expected"⟩, s1 ++ s2)
           else
             .ok (⟨true, "Session timeout successfully triggered"⟩, s1 ++ s2))
    (fun err => (⟨false, "Session timeout test error: " ++ err⟩, [])))

/-- Embedding of `ErrorInjector.inject_timeout_handshake`: wait (elided), then
handshake; both outcomes are reported as success. -/
def inject_timeout_handshake (e : Exchange) : Except String OpOutcome :=
  .ok (tryE
    (match execute_handshake e with
     | .error msg => .error msg
     | .ok (hr, s) =>
       if hr.success then
         .ok (⟨true, "Handshake succeeded after delay (no timeout)"⟩, s)
       else
         .ok (⟨true, "Handshake timeout successfully triggered"⟩, s))
    (fun err => (⟨false, "Handshake timeout test error: " ++ err⟩, [])))

/-- Embedding of `ErrorInjector.inject_crc_frame_corruption`: build a handshake frame,
corrupt its CRC, send it; the corrupted exchange uses `e1`
(`e1.parse` is never consulted).  If a response still arrives the test
fails; if none arrives, attempt a recovery handshake on `e2` — and
report `success = True` whether or not the recovery succeeded. -/
def inject_crc_frame_corruption (e1 e2 : Exchange) : Except String OpOutcome :=
  .ok (tryE
    (match build_frame (e1.ser injectorHandshakeRequest) with
     | .error msg => .error msg
     | .ok normal_frame =>
       let corrupted_frame := corrupt_frame_crc normal_frame
       if ¬ e1.sendOk then
         .ok (⟨false, "Failed to send corrupted frame"⟩, [corrupted_frame])
       else
         match receive_response e1.rx with
         | some _ =>
             .ok (⟨false, "Bootloader did not reject corrupted CRC frame"⟩,
                  [corrupted_frame])
         | none =>
           match execute_handshake e2 with
           | .error msg => .error msg
           | .ok (vh, s) =>
             if vh.success then
               .ok (⟨true, "CRC corruption test successful - bootloader recovered"⟩,
                    corrupted_frame :: s)
             else
               .ok (⟨true, "CRC corruption detected but recovery failed"⟩,
                    corrupted_frame :: s))
    (fun err => (⟨false, "CRC corruption test error: " ++ err⟩, [])))

/-- Embedding of `ErrorInjector.inject_partial_frame_timeout`: send only
`START | LENGTH = 0x0020`, wait (elided), then attempt a recovery
handshake on `e2` — and report `success = True` whether or not the
recovery succeeded.  `sendOk` is the partial frame's write outcome. -/
def inject_partial_frame_timeout (sendOk : Bool) (e2 : Exchange) :
    Except String OpOutcome :=
  .ok (tryE
    (let partial_frame : List Nat := [0x7E, 0x00, 0x20]
     if ¬ sendOk then
       .ok (⟨false, "Failed to send partial frame"⟩, [partial_frame])
     else
       match execute_handshake e2 with
       | .error msg => .error msg
       | .ok (hr, s) =>
         if hr.success then
           .ok (⟨true, "Partial frame timeout test successful - recovery worked"⟩,
                partial_frame :: s)
         else
           .ok (⟨true, "Partial frame timeout detected but recovery failed"⟩,
                partial_frame :: s))
    (fun err => (⟨false, "Partial frame timeout test error: " ++ err⟩, [])))

/-! ## Scenario orchestrator (`OracleScenarioRunner`) -/

/-- Embedding of `ScenarioResult` of `scenario_runner.py`; the wall-clock
`execution_time` and the `data`/`error_details` diagnostics are elided. -/
structure ScenarioResult where
  success : Bool
  scenario_name : String
  message : String
  deriving DecidableEq, Repr

/-- Embedding of `SequenceResult`; `total_execution_time` elided. -/
structure SequenceResult where
  success : Bool
  sequence_name : String
  message : String
  scenario_results : List ScenarioResult
  failed_at_scenario : Option String
  deriving DecidableEq, Repr

/-- One entry of a sequence's `sequence` list: a bare scenario name, a
dict with a `scenario` key (possibly absent) and optional description,
or a value of any other shape (logged and skipped by `continue`). -/
inductive SeqStep
  | str (s : String)
  | dict (scenario : Option String) (description : Option String)
  | invalid
  deriving DecidableEq, Repr

/-- The scenario name a step designates: `none` for an invalid step
(skipped) and `some` of the (possibly absent) name otherwise. -/
def SeqStep.name : SeqStep → Option (Option String)
  | .str s => some (some s)
  | .dict sc _ => some sc
  | .invalid => none

/-- The loop of `execute_scenario_sequence`, parameterized by the
behavior of `execute_single_scenario` (`run`): execute each step in
order, append its result, and return early at the first unsuccessful
result with that step's name as `failed_at_scenario`.  `acc` holds the
results of the steps executed so far, most recent first. -/
def seqLoop (run : Option String → ScenarioResult) (sequence_name : String) :
    List SeqStep → List ScenarioResult → SequenceResult
  | [], acc =>
      ⟨true, sequence_name,
       "All " ++ toString acc.length ++ " scenarios successful",
       acc.reverse, none⟩
  | step :: rest, acc =>
    match step.name with
    | none => seqLoop run sequence_name rest acc
    | some step_scenario =>
      let step_result := run step_scenario
      if step_result.success then
        seqLoop run sequence_name rest (step_result :: acc)
      else
        ⟨false, sequence_name,
         "Sequence failed at scenario " ++ step_scenario.getD "None" ++ ": "
           ++ step_result.message,
         (step_result :: acc).reverse, step_scenario⟩

/-- Embedding of `OracleScenarioRunner.execute_scenario_sequence`: look the sequence
up in `sequences_config` (a name-keyed list of step lists); an unknown
name fails with `failed_at_scenario = configuration_missing`, otherwise
run the fail-fast loop. -/
def execute_scenario_sequence (sequences_config : List (String × List SeqStep))
    (run : Option String → ScenarioResult) (sequence_name : String) :
    SequenceResult :=
  match sequences_config.lookup sequence_name with
  | none =>
      ⟨false, sequence_name, "Sequence " ++ sequence_name ++ " not found",
       [], some "configuration_missing"⟩
  | some sequence_steps => seqLoop run sequence_name sequence_steps []

/-! ## Supporting lemmas -/

theorem crc16_bit_le (crc : Nat) : crc16_bit crc ≤ 0xFFFF := Nat.and_le_right

theorem crc16_byte_le (crc b : Nat) : crc16_byte crc b ≤ 0xFFFF := by
  unfold crc16_byte
  rw [show (8 : Nat) = 7 + 1 from rfl, Function.iterate_succ_apply']
  exact crc16_bit_le _

theorem crc16_foldl_le (l : List Nat) (init : Nat) (h : init ≤ 0xFFFF) :
    l.foldl crc16_byte init ≤ 0xFFFF := by
  induction l generalizing init with
  | nil => exact h
  | cons b t ih => exact ih _ (crc16_byte_le _ _)

theorem calculate_crc16_ccitt_lt (data : List Nat) :
    calculate_crc16_ccitt data < 65536 := by
  have := crc16_foldl_le data 0xFFFF (by omega)
  unfold calculate_crc16_ccitt
  omega

theorem calculate_frame_crc16_lt (length : Nat) (payload : List Nat) :
    calculate_frame_crc16 length payload < 65536 :=
  calculate_crc16_ccitt_lt _

/-- Unpack after pack: decoding the two big-endian bytes
of a 16-bit value gives the value back. -/
theorem be16_decode (n : Nat) (h : n < 65536) :
    256 * (n / 256 % 256) + n % 256 = n := by
  have h1 : n / 256 < 256 := by
    apply Nat.div_lt_of_lt_mul
    omega
  rw [Nat.mod_eq_of_lt h1]
  exact Nat.div_add_mod n 256

theorem read2_be16 (n : Nat) (r : List Nat) :
    read2 (be16 n ++ r) = some (n / 256 % 256, n % 256, r) := rfl

theorem readN_exact (p r : List Nat) : readN p.length (p ++ r) = some (p, r) := by
  unfold readN
  rw [if_pos (by simp), List.take_left, List.drop_left]

/-- A payload is clean when it contains none of the frame-marker or
escape bytes `0x7D`, `0x7E`, `0x7F`. -/
def cleanPayload (p : List Nat) : Prop :=
  ∀ b ∈ p, b ≠ 0x7D ∧ b ≠ 0x7E ∧ b ≠ 0x7F

instance (p : List Nat) : Decidable (cleanPayload p) := by
  unfold cleanPayload
  infer_instance

/-- The source's two escape branches agree with the spec's single rule. -/
theorem escapeBytes_eq_escapeSpec (p : List Nat) : escapeBytes p = escapeSpec p := by
  induction p with
  | nil => rfl
  | cons b t ih =>
    unfold escapeBytes escapeSpec
    rw [ih]
    by_cases h1 : b = 0x7E
    · simp [h1]
    · by_cases h2 : b = 0x7F
      · simp [h2]
      · by_cases h3 : b = 0x7D
        · simp [h1, h2, h3]
        · simp [h1, h2, h3]

/-- Escaping is the identity on clean payloads. -/
theorem escapeBytes_id (p : List Nat) (h : cleanPayload p) : escapeBytes p = p := by
  induction p with
  | nil => rfl
  | cons b t ih =>
    have hb := h b (by simp)
    unfold escapeBytes
    rw [ih (fun x hx => h x (by simp [hx]))]
    simp [hb.1, hb.2.1, hb.2.2]

/-- On payloads of at most 1024 bytes, `build_frame` succeeds and produces
the `frameOf` bytes. -/
theorem build_frame_ok (p : List Nat) (h : p.length ≤ 1024) :
    build_frame p = .ok (frameOf p) := by
  unfold build_frame frameOf
  rw [if_neg (by omega)]

/-- The start-search loop of `receive_response` skips fewer than `fuel`
non-start bytes. -/
theorem findStart32_skip (g : List Nat) (rest : List Nat) (fuel : Nat)
    (hlen : g.length < fuel) (hg : ∀ b ∈ g, b ≠ 0x7E) :
    findStart32 fuel (g ++ 0x7E :: rest) = some rest := by
  induction g generalizing fuel with
  | nil =>
    cases fuel with
    | zero => omega
    | succ k => simp [findStart32]
  | cons a t ih =>
    cases fuel with
    | zero => omega
    | succ k =>
      have ha : a ≠ 0x7E := hg a (by simp)
      simp only [List.cons_append, findStart32, if_neg ha]
      exact ih k (by simpa using hlen) (fun b hb => hg b (by simp [hb]))

/-- The search `find_frame_start` skips any number of non-start bytes. -/
theorem findFrameStart_skip (g : List Nat) (rest : List Nat)
    (hg : ∀ b ∈ g, b ≠ 0x7E) :
    findFrameStart (g ++ 0x7E :: rest) = some rest := by
  induction g with
  | nil => simp [findFrameStart]
  | cons a t ih =>
    have ha : a ≠ 0x7E := hg a (by simp)
    simp only [List.cons_append, findFrameStart, if_neg ha]
    exact ih (fun b hb => hg b (by simp [hb]))

/-- The field reads of `receive_response` decode a well-formed frame
body for any payload of length ≤ 1024 (the wire payload here is the
raw payload: no escaping took place or it was the identity). -/
theorem receiveAfterStart_frame (p : List Nat) (hlen : p.length ≤ 1024) :
    receiveAfterStart
      (be16 p.length ++ (p ++ (be16 (calculate_frame_crc16 p.length p) ++ [0x7F])))
      = some p := by
  have hdec : 256 * (p.length / 256 % 256) + p.length % 256 = p.length :=
    be16_decode _ (by omega)
  have hcrc : 256 * (calculate_frame_crc16 p.length p / 256 % 256)
      + calculate_frame_crc16 p.length p % 256 = calculate_frame_crc16 p.length p :=
    be16_decode _ (calculate_frame_crc16_lt _ _)
  unfold receiveAfterStart
  simp only [read2_be16, hdec]
  rw [if_neg (by omega)]
  simp only [readN_exact, read2_be16, hcrc, read1]
  rw [if_neg (by omega), if_neg (by omega)]

/-- The field reads of `parse_frame` decode a well-formed frame body for
any nonempty payload of length ≤ 1024. -/
theorem parseAfterStart_frame (p : List Nat) (hlen : p.length ≤ 1024)
    (hne : p ≠ []) :
    parseAfterStart
      (be16 p.length ++ (p ++ (be16 (calculate_frame_crc16 p.length p) ++ [0x7F])))
      = .ok p := by
  have hdec : 256 * (p.length / 256 % 256) + p.length % 256 = p.length :=
    be16_decode _ (by omega)
  have hcrc : 256 * (calculate_frame_crc16 p.length p / 256 % 256)
      + calculate_frame_crc16 p.length p % 256 = calculate_frame_crc16 p.length p :=
    be16_decode _ (calculate_frame_crc16_lt _ _)
  unfold parseAfterStart
  simp only [read2_be16, hdec]
  rw [if_neg (by omega)]
  simp only [readN_exact]
  rw [if_neg (by simpa using hne)]
  simp only [read2_be16, hcrc, read1]
  rw [if_neg (by omega)]
  rw [if_neg (by simp [calculate_frame_crc16, be16])]

/-- A clean frame stream splits as start marker plus the frame body. -/
theorem frameOf_clean (p : List Nat) (hp : cleanPayload p) :
    frameOf p =
      0x7E :: (be16 p.length ++ (p ++ (be16 (calculate_frame_crc16 p.length p) ++ [0x7F]))) := by
  unfold frameOf
  rw [escapeBytes_id p hp]
  simp

/-- Lemma: `receive_response` decodes a clean frame preceded by at most 31
non-start garbage bytes. -/
theorem receive_response_garbage (p g : List Nat) (hp : cleanPayload p)
    (hlen : p.length ≤ 1024) (hg : ∀ b ∈ g, b ≠ 0x7E) (hgl : g.length ≤ 31) :
    receive_response (g ++ frameOf p) = some p := by
  unfold receive_response
  rw [frameOf_clean p hp, findStart32_skip g _ 32 (by omega) hg]
  exact receiveAfterStart_frame p hlen

/-- Lemma: `parse_frame` decodes a clean nonempty frame preceded by any number
of non-start garbage bytes. -/
theorem parse_frame_garbage (p g : List Nat) (hp : cleanPayload p)
    (hlen : p.length ≤ 1024) (hne : p ≠ []) (hg : ∀ b ∈ g, b ≠ 0x7E) :
    parse_frame (g ++ frameOf p) = .ok p := by
  unfold parse_frame
  rw [frameOf_clean p hp, findFrameStart_skip g _ hg]
  exact parseAfterStart_frame p hlen hne

theorem crc16_bit_iterate (n crc : Nat) :
    crc16_bit^[n] crc = crc16_spec_bits n crc := by
  induction n generalizing crc with
  | zero => rfl
  | succ k ih =>
    rw [Function.iterate_succ_apply, ih]
    show crc16_spec_bits k (crc16_bit crc) = crc16_spec_bits (k + 1) crc
    have hstep : crc16_bit crc =
        (if crc &&& 0x8000 ≠ 0 then ((crc <<< 1) ^^^ 0x1021) &&& 0xFFFF
         else (crc <<< 1) &&& 0xFFFF) := by
      unfold crc16_bit
      by_cases h : crc &&& 0x8000 ≠ 0
      · rw [if_pos h, if_pos h]
      · rw [if_neg h, if_neg h]
    rw [hstep]
    rw [show crc16_spec_bits (k + 1) crc = crc16_spec_bits k
        (if crc &&& 0x8000 ≠ 0 then ((crc <<< 1) ^^^ 0x1021) &&& 0xFFFF
         else (crc <<< 1) &&& 0xFFFF) from rfl]

theorem crc16_foldl_spec (l : List Nat) (init : Nat) :
    l.foldl crc16_byte init = crc16_spec_go l init := by
  induction l generalizing init with
  | nil => rfl
  | cons b t ih =>
    unfold crc16_spec_go
    rw [List.foldl_cons, ih]
    unfold crc16_byte
    rw [crc16_bit_iterate]

theorem crc32_bit_iterate (n crc : Nat) :
    crc32_bit^[n] crc = crc32_spec_bits n crc := by
  induction n generalizing crc with
  | zero => rfl
  | succ k ih =>
    rw [Function.iterate_succ_apply, ih]
    rfl

theorem crc32_foldl_spec (l : List Nat) (init : Nat) :
    l.foldl crc32_byte init = crc32_spec_go l init := by
  induction l generalizing init with
  | nil => rfl
  | cons b t ih =>
    unfold crc32_spec_go
    rw [List.foldl_cons, ih]
    unfold crc32_byte
    rw [crc32_bit_iterate]

/-- Writing an entry's own value back leaves a list unchanged. -/
theorem list_set_own (l : List Nat) (i : Nat) : l.set i (l.getD i 0) = l := by
  induction l generalizing i with
  | nil => rfl
  | cons a t ih =>
    cases i with
    | zero => rfl
    | succ j =>
      show a :: t.set j (t.getD j 0) = a :: t
      rw [ih]

theorem list_getD_set_self (l : List Nat) (i v : Nat) (h : i < l.length) :
    (l.set i v).getD i 0 = v := by
  induction l generalizing i with
  | nil => simp at h
  | cons a t ih =>
    cases i with
    | zero => rfl
    | succ j =>
      show (t.set j v).getD j 0 = v
      exact ih j (by simpa using h)

theorem list_getD_set_ne (l : List Nat) (i j v : Nat) (h : i ≠ j) :
    (l.set i v).getD j 0 = l.getD j 0 := by
  induction l generalizing i j with
  | nil => rfl
  | cons a t ih =>
    cases i with
    | zero =>
      cases j with
      | zero => omega
      | succ k => rfl
    | succ m =>
      cases j with
      | zero => rfl
      | succ k =>
        show (t.set m v).getD k 0 = t.getD k 0
        exact ih m k (by omega)

/-! ### Sequence-loop lemmas -/

theorem seqLoop_all_success (run : Option String → ScenarioResult)
    (nm : String) (names : List String) (acc : List ScenarioResult)
    (h : ∀ n ∈ names, (run (some n)).success = true) :
    seqLoop run nm (names.map .str) acc =
      ⟨true, nm,
       "All " ++ toString (acc.length + names.length) ++ " scenarios successful",
       acc.reverse ++ names.map (fun n => run (some n)), none⟩ := by
  induction names generalizing acc with
  | nil => simp [seqLoop]
  | cons n t ih =>
    have hn := h n (by simp)
    simp only [List.map_cons, seqLoop, SeqStep.name, hn, if_true]
    rw [ih (run (some n) :: acc) (fun x hx => h x (by simp [hx]))]
    have hlen : (run (some n) :: acc).length + t.length
        = acc.length + (t.length + 1) := by
      simp only [List.length_cons]
      omega
    rw [hlen]
    simp [List.append_assoc]

theorem seqLoop_first_fail (run : Option String → ScenarioResult)
    (nm : String) (pre : List String) (bad : String) (post : List SeqStep)
    (acc : List ScenarioResult)
    (hpre : ∀ n ∈ pre, (run (some n)).success = true)
    (hbad : (run (some bad)).success = false) :
    seqLoop run nm (pre.map .str ++ SeqStep.str bad :: post) acc =
      ⟨false, nm,
       "Sequence failed at scenario " ++ bad ++ ": " ++ (run (some bad)).message,
       acc.reverse ++ pre.map (fun n => run (some n)) ++ [run (some bad)],
       some bad⟩ := by
  induction pre generalizing acc with
  | nil =>
    simp only [List.map_nil, List.nil_append, seqLoop, SeqStep.name, hbad,
      Bool.false_eq_true, if_false]
    simp [Option.getD]
  | cons n t ih =>
    have hn := hpre n (by simp)
    simp only [List.map_cons, List.cons_append, seqLoop, SeqStep.name, hn, if_true,
      List.append_eq]
    rw [ih (run (some n) :: acc) (fun x hx => hpre x (by simp [hx]))]
    simp [List.append_assoc]

/-! ### Sequence-id adjustment: infrastructure for checking whether any
phase consults the response envelope's `sequence_id` -/

/-- Override the `sequence_id` of a parsed response. -/
def setRespSeq (n : Nat) : Except String BootloaderResponse →
    Except String BootloaderResponse
  | .ok r => .ok { r with sequence_id := n }
  | .error m => .error m

/-- The exchange whose parsed responses carry `sequence_id = n` but are
otherwise identical. -/
def setSeq (n : Nat) (e : Exchange) : Exchange :=
  { e with parse := fun p => setRespSeq n (e.parse p) }

theorem setSeq_ser (n : Nat) (e : Exchange) : (setSeq n e).ser = e.ser := rfl

theorem handshakeBody_setSeq (n : Nat) (e : Exchange) (payload : List Nat) :
    handshakeBody (setSeq n e) payload = handshakeBody e payload := by
  rcases e with ⟨ser, sendOk, rx, parse, waiting⟩
  unfold handshakeBody setSeq
  cases build_frame payload with
  | error m => rfl
  | ok frame =>
    cases sendOk with
    | false => rfl
    | true =>
      cases receive_response rx with
      | none => rfl
      | some rp =>
        cases h : parse rp with
        | error m => simp [h, setRespSeq]
        | ok r =>
          rcases r with ⟨sid, resp⟩
          rcases resp with _ | r0
          · simp [h, setRespSeq]
          · cases r0 <;> simp [h, setRespSeq]

theorem prepareBody_setSeq (n : Nat) (e : Exchange) (payload : List Nat) :
    prepareBody (setSeq n e) payload = prepareBody e payload := by
  rcases e with ⟨ser, sendOk, rx, parse, waiting⟩
  unfold prepareBody setSeq
  cases build_frame payload with
  | error m => rfl
  | ok frame =>
    cases sendOk with
    | false => rfl
    | true =>
      cases receive_response rx with
      | none => rfl
      | some rp =>
        cases h : parse rp with
        | error m => simp [h, setRespSeq]
        | ok r =>
          rcases r with ⟨sid, resp⟩
          rcases resp with _ | r0
          · simp [h, setRespSeq]
          · cases r0 with
            | handshake a b c => simp [h, setRespSeq]
            | ack s m => cases s <;> simp [h, setRespSeq]

theorem dataBody_setSeq (n : Nat) (e : Exchange) (payload : List Nat) :
    dataBody (setSeq n e) payload = dataBody e payload := by
  rcases e with ⟨ser, sendOk, rx, parse, waiting⟩
  unfold dataBody setSeq
  cases build_frame payload with
  | error m => rfl
  | ok frame =>
    cases sendOk with
    | false => rfl
    | true =>
      cases hdl : (if waiting > 0 then decode_leftover_data (rx.take waiting)
          else .ok ⟨false, ""⟩) with
      | error m => simp [hdl]
      | ok r' =>
        simp only [hdl]
        cases receive_response (if waiting > 0 then rx.drop waiting else rx) with
        | none => rfl
        | some rp =>
          cases h : parse rp with
          | error m => simp [h, setRespSeq]
          | ok r =>
            rcases r with ⟨sid, resp⟩
            rcases resp with _ | r0
            · simp [h, setRespSeq]
            · cases r0 with
              | handshake a b c => simp [h, setRespSeq]
              | ack s m => cases s <;> simp [h, setRespSeq]

theorem execute_verify_flash_setSeq (n : Nat) (staged : Option Nat) (e : Exchange) :
    execute_verify_flash staged (setSeq n e) = execute_verify_flash staged e := by
  rcases e with ⟨ser, sendOk, rx, parse, waiting⟩
  rfl

/-! ### Result extraction helpers -/

/-- An operation terminated normally (no exception escaped). -/
def exceptIsOk {α : Type} : Except String α → Bool
  | .ok _ => true
  | .error _ => false

/-- The `ProtocolResult` of a normally terminated operation. -/
def resultOf : Except String OpOutcome → Option ProtocolResult
  | .ok (r, _) => some r
  | .error _ => none

/-- The frames an operation passed to `send_raw_frame`. -/
def sentOf : Except String OpOutcome → Option (List (List Nat))
  | .ok (_, s) => some s
  | .error _ => none

/-! ## Claims -/

instance exceptDecEq {ε α : Type} [DecidableEq ε] [DecidableEq α] :
    DecidableEq (Except ε α)
  | .error a, .error b =>
      if h : a = b then .isTrue (by rw [h])
      else .isFalse (by intro hc; injection hc with h2; exact h h2)
  | .error _, .ok _ => .isFalse (by intro hc; exact Except.noConfusion hc)
  | .ok _, .error _ => .isFalse (by intro hc; exact Except.noConfusion hc)
  | .ok a, .ok b =>
      if h : a = b then .isTrue (by rw [h])
      else .isFalse (by intro hc; injection hc with h2; exact h h2)

set_option maxRecDepth 8000

/-- C1 (counterexample): the round-trip claim fails at the one-byte
payload `[0x7E]`: `build_frame` escapes it on the wire, but neither
decoder unescapes, so `receive_response` returns `None` on the encoded
frame and `parse_frame` does not return the payload either. -/
theorem C1_counterexample :
    build_frame [0x7E] = .ok (frameOf [0x7E]) ∧
    receive_response (frameOf [0x7E]) = none ∧
    parse_frame (frameOf [0x7E]) ≠ .ok [0x7E] := by decide

/-- C1 (amended): the frame codec round-trips exactly the payloads free
of the marker/escape bytes `0x7D`, `0x7E`, `0x7F`: for every such
payload of length ≤ 1024, `receive_response` on the encoded frame
returns the payload, and `parse_frame` does too provided the payload is
nonempty (`parse_frame` rejects zero-length payloads via its
`if not payload` guard). -/
theorem C1_roundtrip_clean (p : List Nat) (hp : cleanPayload p)
    (hlen : p.length ≤ 1024) :
    build_frame p = .ok (frameOf p) ∧
    receive_response (frameOf p) = some p ∧
    (p ≠ [] → parse_frame (frameOf p) = .ok p) := by
  refine ⟨build_frame_ok p hlen, ?_, ?_⟩
  · have h := receive_response_garbage p [] hp hlen (by simp) (by simp)
    simpa using h
  · intro hne
    have h := parse_frame_garbage p [] hp hlen hne (by simp)
    simpa using h

/-- C1 (witness): the amended round trip evaluated at `[1, 2, 3]`. -/
theorem C1_roundtrip_clean_witness :
    build_frame [1, 2, 3] = .ok (frameOf [1, 2, 3]) ∧
    receive_response (frameOf [1, 2, 3]) = some [1, 2, 3] ∧
    (([1, 2, 3] : List Nat) ≠ [] → parse_frame (frameOf [1, 2, 3]) = .ok [1, 2, 3]) :=
  C1_roundtrip_clean [1, 2, 3] (by decide) (by decide)

/-- C2: `build_frame` emits exactly the spec's layout — start marker,
big-endian pre-escape length, payload with every `0x7E`/`0x7F`/`0x7D`
byte replaced by `0x7D` and the byte XOR `0x20`, big-endian CRC16 over
the length bytes and the unescaped payload, end marker — and rejects
any payload over 1024 bytes with an error before encoding. -/
theorem C2_build_frame_spec (p : List Nat) :
    build_frame p =
      if 1024 < p.length then
        .error ("Payload too large: " ++ toString p.length ++ " > 1024")
      else .ok (frameSpec p) := by
  unfold build_frame frameSpec
  by_cases h : 1024 < p.length
  · rw [if_pos h, if_pos h]
  · rw [if_neg h, if_neg h, escapeBytes_eq_escapeSpec]
    rfl

/-- C3: the source checksums equal the spec's reference definitions
(CRC16-CCITT: init `0xFFFF`, poly `0x1021`, MSB-first, no reflection,
no final XOR; CRC32: init `0xFFFFFFFF`, reflected poly `0xEDB88320`,
LSB-first, final NOT), they reproduce the published check values for
`123456789`, and on empty input they return `0xFFFF` and `0`.  Purity
and determinism hold by construction: both are total functions of the
input bytes. -/
theorem C3_checksum_reference :
    (∀ data : List Nat, calculate_crc16_ccitt data = crc16_spec data) ∧
    (∀ data : List Nat, calculate_crc32 data = crc32_spec data) ∧
    calculate_crc16_ccitt [49, 50, 51, 52, 53, 54, 55, 56, 57] = 0x29B1 ∧
    calculate_crc32 [49, 50, 51, 52, 53, 54, 55, 56, 57] = 0xCBF43926 ∧
    calculate_crc16_ccitt [] = 0xFFFF ∧
    calculate_crc32 [] = 0 := by
  refine ⟨?_, ?_, by decide, by decide, rfl, rfl⟩
  · intro d
    exact crc16_foldl_spec d 0xFFFF
  · intro d
    unfold calculate_crc32 crc32_spec
    rw [crc32_foldl_spec]

/-- C4 (counterexample): with 255 garbage bytes before a valid frame,
`receive_response` fails — its resync loop gives up after 32 read
attempts (`while attempts < 32`) — even though `parse_frame` still
decodes the same stream. -/
theorem C4_counterexample :
    receive_response (List.replicate 255 0 ++ frameOf [1, 2, 3]) = none ∧
    parse_frame (List.replicate 255 0 ++ frameOf [1, 2, 3]) = .ok [1, 2, 3] := by
  decide

/-- C4 (amended): `UniversalFrameParser` discards garbage until the
start marker with no bound other than the read timeout, so it decodes a
clean valid frame after any number of non-`0x7E` garbage bytes
(including 0, 1, 10 and 255); `ProtocolClient.receive_response` discards
at most 31 garbage bytes, so it decodes after N ≤ 31 garbage bytes
(covering 0, 1 and 10 but not 255). -/
theorem C4_resync (p g : List Nat) (hp : cleanPayload p)
    (hlen : p.length ≤ 1024) (hne : p ≠ []) (hg : ∀ b ∈ g, b ≠ 0x7E) :
    parse_frame (g ++ frameOf p) = .ok p ∧
    (g.length ≤ 31 → receive_response (g ++ frameOf p) = some p) :=
  ⟨parse_frame_garbage p g hp hlen hne hg,
   fun hgl => receive_response_garbage p g hp hlen hg hgl⟩

/-- C4 (witness): resync over 10 garbage bytes, for both decoders. -/
theorem C4_resync_witness :
    parse_frame (List.replicate 10 0 ++ frameOf [1, 2, 3]) = .ok [1, 2, 3] ∧
    receive_response (List.replicate 10 0 ++ frameOf [1, 2, 3]) = some [1, 2, 3] :=
  ⟨(C4_resync [1, 2, 3] (List.replicate 10 0) (by decide) (by decide) (by decide)
      (by decide)).1,
   (C4_resync [1, 2, 3] (List.replicate 10 0) (by decide) (by decide) (by decide)
      (by decide)).2 (by decide)⟩

/-- A transport environment where sends succeed but the device stays
silent (empty receive stream), and protobuf parsing fails. -/
def envSendRecvNone : Exchange :=
  { ser := fun _ => [], sendOk := true, rx := [],
    parse := fun _ => .error "no parse", waiting := 0 }

/-- A transport environment where the write itself fails. -/
def envSendFail : Exchange :=
  { ser := fun _ => [], sendOk := false, rx := [],
    parse := fun _ => .error "no parse", waiting := 0 }

/-- C5 (counterexample): with the fault produced (corrupted frame sent,
no response) but the recovery handshake failing (its send fails), both
injector methods return `success = True`, contradicting the claim that
a failed recovery assertion is reported as failure. -/
theorem C5_counterexample :
    receive_response envSendRecvNone.rx = none ∧
    resultOf (execute_handshake envSendFail) =
      some ⟨false, "Failed to send handshake frame"⟩ ∧
    resultOf (inject_crc_frame_corruption envSendRecvNone envSendFail) =
      some ⟨true, "CRC corruption detected but recovery failed"⟩ ∧
    resultOf (inject_partial_frame_timeout true envSendFail) =
      some ⟨true, "Partial frame timeout detected but recovery failed"⟩ := by
  decide

/-- C5 (amended): when the fault is produced but the clean-operation
recovery fails, `inject_crc_frame_corruption` and
`inject_partial_frame_timeout` both return a `ProtocolResult` with
`success = True`; the recovery failure is recorded only in the message
(`... detected but recovery failed`). -/
theorem C5_recovery_failure_reported_success (e1 e2 : Exchange) (f : List Nat)
    (hb : build_frame (e1.ser injectorHandshakeRequest) = .ok f)
    (hs : e1.sendOk = true)
    (hr : receive_response e1.rx = none)
    (hh : (resultOf (execute_handshake e2)).map ProtocolResult.success = some false) :
    resultOf (inject_crc_frame_corruption e1 e2) =
      some ⟨true, "CRC corruption detected but recovery failed"⟩ ∧
    resultOf (inject_partial_frame_timeout true e2) =
      some ⟨true, "Partial frame timeout detected but recovery failed"⟩ := by
  obtain ⟨r, s, hre, hrs⟩ :
      ∃ r s, execute_handshake e2 = .ok (r, s) ∧ r.success = false := by
    cases hcase : execute_handshake e2 with
    | error m => rw [hcase] at hh; simp [resultOf] at hh
    | ok y =>
      rcases y with ⟨r, s⟩
      rw [hcase] at hh
      simp [resultOf] at hh
      exact ⟨r, s, rfl, hh⟩
  constructor
  · unfold inject_crc_frame_corruption
    simp only [hb, hs, hr, hre]
    simp [tryE, resultOf, hrs]
  · unfold inject_partial_frame_timeout
    simp only [hre]
    simp [tryE, resultOf, hrs]

/-- C5 (witness): the amended behavior evaluated on the concrete silent
environment and failing recovery environment. -/
theorem C5_witness :
    resultOf (inject_crc_frame_corruption envSendRecvNone envSendFail) =
      some ⟨true, "CRC corruption detected but recovery failed"⟩ ∧
    resultOf (inject_partial_frame_timeout true envSendFail) =
      some ⟨true, "Partial frame timeout detected but recovery failed"⟩ :=
  C5_recovery_failure_reported_success envSendRecvNone envSendFail (frameOf [])
    (by decide) (by decide) (by decide) (by decide)

/-- A device environment whose parsed handshake response carries a
mismatched `sequence_id = 999` (the request used `sequence_id = 1`). -/
def envSeqMismatch : Exchange :=
  { ser := fun _ => [1], sendOk := true, rx := frameOf [2],
    parse := fun _ => .ok ⟨999, some (.handshake "4.6.3" "caps" 2048)⟩,
    waiting := 0 }

/-- C6 (counterexample): the handshake phase succeeds on a response
whose envelope `sequence_id` (999) differs from the request's (1): no
phase compares sequence ids, refuting the claim that a mismatch fails
the phase. -/
theorem C6_counterexample :
    handshakeRequest.sequence_id = 1 ∧
    envSeqMismatch.parse [2] = .ok ⟨999, some (.handshake "4.6.3" "caps" 2048)⟩ ∧
    receive_response envSeqMismatch.rx = some [2] ∧
    resultOf (execute_handshake envSeqMismatch) = some ⟨true, "Handshake completed"⟩ := by
  decide

/-- C6 (amended): no phase consults the response envelope's
`sequence_id` at all — overriding it to an arbitrary value in every
parsed response changes no phase's outcome (handshake, prepare, data
and verify are all invariant under `setSeq`). -/
theorem C6_sequence_id_ignored (n : Nat) (e : Exchange) (data_length : Nat)
    (test_data : List Nat) (staged : Option Nat) :
    execute_handshake (setSeq n e) = execute_handshake e ∧
    execute_prepare_flash data_length (setSeq n e) =
      execute_prepare_flash data_length e ∧
    execute_data_transfer test_data (setSeq n e) =
      execute_data_transfer test_data e ∧
    execute_verify_flash staged (setSeq n e) = execute_verify_flash staged e := by
  refine ⟨?_, ?_, ?_, execute_verify_flash_setSeq n staged e⟩
  · simp only [execute_handshake, setSeq_ser, handshakeBody_setSeq]
  · simp only [execute_prepare_flash, setSeq_ser, prepareBody_setSeq]
  · simp only [execute_data_transfer, setSeq_ser, dataBody_setSeq]

/-- A device environment whose response parses as `Ack{success=true}`
but whose payload does not contain the bytes `VERIFY_SUCCESS`. -/
def envVerifyAck : Exchange :=
  { ser := fun _ => [1], sendOk := true, rx := frameOf [2, 3],
    parse := fun _ => .ok ⟨4, some (.ack true "flash verified")⟩, waiting := 0 }

/-- C7 (counterexample): `execute_verify_flash` fails on a response that
is an `Ack` with `success=true`: the method never parses the protobuf
response, it only greps the payload for the bytes `VERIFY_SUCCESS`. -/
theorem C7_counterexample :
    envVerifyAck.parse [2, 3] = .ok ⟨4, some (.ack true "flash verified")⟩ ∧
    receive_response envVerifyAck.rx = some [2, 3] ∧
    resultOf (execute_verify_flash (some 256) envVerifyAck) =
      some ⟨false, "Flash verification failed"⟩ := by
  decide

/-- C7 (amended): `execute_verify_flash` sends one frame carrying a
`FlashProgramRequest` with `total_data_length` equal to the staged
length (default 256 when never staged) and `verify_after_program=true`
under `sequence_id` 4, and succeeds exactly when a response frame is
received whose payload contains the ASCII bytes `VERIFY_SUCCESS`. -/
theorem C7_verify_flash (staged : Option Nat) (e : Exchange) (f : List Nat)
    (hb : build_frame (e.ser (verifyRequest staged)) = .ok f)
    (hs : e.sendOk = true) :
    (verifyRequest staged).sequence_id = 4 ∧
    (verifyRequest staged).request =
      .flash_program ⟨staged.getD 256, true⟩ ∧
    sentOf (execute_verify_flash staged e) = some [f] ∧
    (resultOf (execute_verify_flash staged e)).map ProtocolResult.success =
      some (match receive_response e.rx with
            | none => false
            | some rp => bytesHasSub asciiVerifySuccess rp) := by
  refine ⟨rfl, rfl, ?_, ?_⟩ <;>
  · unfold execute_verify_flash verifyBody
    simp only [hb, hs]
    cases receive_response e.rx with
    | none => simp [tryE, sentOf, resultOf]
    | some rp =>
      cases hsub : bytesHasSub asciiVerifySuccess rp <;>
        simp [tryE, sentOf, resultOf, hsub]

/-- A device environment whose verify response payload is exactly the
bytes `VERIFY_SUCCESS`. -/
def envVerifyOk : Exchange :=
  { ser := fun _ => [1], sendOk := true, rx := frameOf asciiVerifySuccess,
    parse := fun _ => .error "unused", waiting := 0 }

/-- C7 (witness): the amended verify behavior evaluated on a concrete
environment whose response contains `VERIFY_SUCCESS`. -/
theorem C7_witness :
    (verifyRequest (some 256)).sequence_id = 4 ∧
    (verifyRequest (some 256)).request = .flash_program ⟨256, true⟩ ∧
    sentOf (execute_verify_flash (some 256) envVerifyOk) = some [frameOf [1]] ∧
    (resultOf (execute_verify_flash (some 256) envVerifyOk)).map
        ProtocolResult.success =
      some (match receive_response envVerifyOk.rx with
            | none => false
            | some rp => bytesHasSub asciiVerifySuccess rp) :=
  C7_verify_flash (some 256) envVerifyOk (frameOf [1]) (by decide) (by decide)

/-- C8: every public Protocol Client operation and every Fault Injector
method terminates normally with a `ProtocolResult` in every environment:
every internal failure path (frame build rejection, receive failure,
protobuf parse error, the `IndexError` reachable inside
`decode_leftover_data`) is caught by a `try` block and mapped to
`ProtocolResult{success=false}`, so no exception crosses the public
boundary. -/
theorem C8_no_throw :
    (∀ e, exceptIsOk (execute_handshake e) = true) ∧
    (∀ dl e, exceptIsOk (execute_prepare_flash dl e) = true) ∧
    (∀ d e, exceptIsOk (execute_data_transfer d e) = true) ∧
    (∀ st e, exceptIsOk (execute_verify_flash st e) = true) ∧
    (∀ d st e1 e2 e3 e4,
      exceptIsOk (execute_complete_protocol d st e1 e2 e3 e4) = true) ∧
    (∀ e1 e2, exceptIsOk (inject_timeout_session e1 e2) = true) ∧
    (∀ e, exceptIsOk (inject_timeout_handshake e) = true) ∧
    (∀ e1 e2, exceptIsOk (inject_crc_frame_corruption e1 e2) = true) ∧
    (∀ b e2, exceptIsOk (inject_partial_frame_timeout b e2) = true) := by
  refine ⟨fun e => rfl, fun dl e => rfl, fun d e => rfl, fun st e => rfl, ?_,
    fun e1 e2 => rfl, fun e => rfl, fun e1 e2 => rfl, fun b e2 => rfl⟩
  intro d st e1 e2 e3 e4
  unfold execute_complete_protocol
  obtain ⟨⟨r1, s1⟩, h1⟩ : ∃ y, execute_handshake e1 = .ok y := ⟨_, rfl⟩
  obtain ⟨⟨r2, s2⟩, h2⟩ : ∃ y, execute_prepare_flash d.length e2 = .ok y := ⟨_, rfl⟩
  obtain ⟨⟨r3, s3⟩, h3⟩ : ∃ y, execute_data_transfer d e3 = .ok y := ⟨_, rfl⟩
  obtain ⟨⟨r4, s4⟩, h4⟩ : ∃ y, execute_verify_flash st e4 = .ok y := ⟨_, rfl⟩
  simp only [h1, h2, h3, h4]
  cases r1.success <;> cases r2.success <;> cases r3.success <;>
    cases r4.success <;> rfl

/-- The scenario behavior used to witness C9: three scenarios where the
second fails. -/
def demoRun : Option String → ScenarioResult := fun n =>
  match n with
  | some "s2" => ⟨false, "s2", "boom"⟩
  | some s => ⟨true, s, "ok"⟩
  | none => ⟨false, "None", "missing"⟩

/-- The sequence configuration used to witness C9. -/
def demoCfg : List (String × List SeqStep) :=
  [("seq1", [SeqStep.str "s1", SeqStep.str "s2", SeqStep.str "s3"])]

/-- C9: `execute_scenario_sequence` runs a sequence of scenario names in
order; if every scenario succeeds it returns `success=true` with one
result per scenario; at the first unsuccessful scenario it stops (later
scenarios never run), returning `success=false`, that scenario's name as
`failed_at_scenario`, and exactly the results of the scenarios executed
so far, the failing one included. -/
theorem C9_fail_fast (cfg : List (String × List SeqStep))
    (run : Option String → ScenarioResult) (nm : String) (names : List String)
    (hcfg : cfg.lookup nm = some (names.map .str)) :
    ((∀ n ∈ names, (run (some n)).success = true) →
      execute_scenario_sequence cfg run nm =
        ⟨true, nm, "All " ++ toString names.length ++ " scenarios successful",
         names.map (fun n => run (some n)), none⟩) ∧
    (∀ pre bad post, names = pre ++ bad :: post →
      (∀ n ∈ pre, (run (some n)).success = true) →
      (run (some bad)).success = false →
      execute_scenario_sequence cfg run nm =
        ⟨false, nm,
         "Sequence failed at scenario " ++ bad ++ ": " ++ (run (some bad)).message,
         pre.map (fun n => run (some n)) ++ [run (some bad)],
         some bad⟩) := by
  constructor
  · intro hall
    unfold execute_scenario_sequence
    simp only [hcfg]
    have h := seqLoop_all_success run nm names [] hall
    simpa using h
  · intro pre bad post hsplit hpre hbad
    unfold execute_scenario_sequence
    simp only [hcfg, hsplit, List.map_append, List.map_cons]
    have h := seqLoop_first_fail run nm pre bad (post.map .str) [] hpre hbad
    simpa using h

/-- C9 (witness): a three-scenario sequence whose second scenario fails
reports `failed_at_scenario = s2` and exactly two results. -/
theorem C9_fail_fast_witness :
    execute_scenario_sequence demoCfg demoRun "seq1" =
      ⟨false, "seq1",
       "Sequence failed at scenario " ++ "s2" ++ ": " ++ (demoRun (some "s2")).message,
       ["s1"].map (fun n => demoRun (some n)) ++ [demoRun (some "s2")],
       some "s2"⟩ :=
  (C9_fail_fast demoCfg demoRun "seq1" ["s1", "s2", "s3"] (by decide)).2
    ["s1"] "s2" ["s3"] rfl (by decide) (by decide)

/-- C10: `corrupt_frame_crc` returns frames shorter than 6 bytes
unchanged; on longer frames it preserves the length, flips exactly the
byte at index `length - 3` (the CRC high byte, XORed with `0xFF`, hence
always different), leaves every other position unchanged, and is an
involution. -/
theorem C10_corrupt_frame_crc (frame : List Nat) :
    (frame.length < 6 → corrupt_frame_crc frame = frame) ∧
    (6 ≤ frame.length →
      (corrupt_frame_crc frame).length = frame.length ∧
      (corrupt_frame_crc frame).getD (frame.length - 3) 0
        = frame.getD (frame.length - 3) 0 ^^^ 0xFF ∧
      (corrupt_frame_crc frame).getD (frame.length - 3) 0
        ≠ frame.getD (frame.length - 3) 0 ∧
      (∀ i, i ≠ frame.length - 3 →
        (corrupt_frame_crc frame).getD i 0 = frame.getD i 0) ∧
      corrupt_frame_crc (corrupt_frame_crc frame) = frame) := by
  constructor
  · intro h
    unfold corrupt_frame_crc
    rw [if_pos h]
  · intro h
    have hidx : frame.length - 3 < frame.length := by omega
    have hC : corrupt_frame_crc frame =
        frame.set (frame.length - 3) (frame.getD (frame.length - 3) 0 ^^^ 0xFF) := by
      unfold corrupt_frame_crc
      rw [if_neg (by omega)]
    have hlen : (corrupt_frame_crc frame).length = frame.length := by
      rw [hC, List.length_set]
    refine ⟨hlen, ?_, ?_, ?_, ?_⟩
    · rw [hC, list_getD_set_self _ _ _ hidx]
    · rw [hC, list_getD_set_self _ _ _ hidx]
      intro hcontra
      have h255 : (255 : Nat).testBit 0 = true := by decide
      have hbit := congrArg (fun y => y.testBit 0) hcontra
      simp only [Nat.testBit_xor, h255, Bool.xor_true] at hbit
      cases hb : (frame.getD (frame.length - 3) 0).testBit 0 <;>
        simp [hb] at hbit
    · intro i hi
      rw [hC, list_getD_set_ne _ _ _ _ (by omega)]
    · rw [hC]
      unfold corrupt_frame_crc
      rw [if_neg (by rw [List.length_set]; omega)]
      rw [List.length_set, list_getD_set_self _ _ _ hidx, List.set_set,
        Nat.xor_cancel_right, list_set_own]

/-- C10 (witness): both branches evaluated on concrete frames — a
3-byte frame is unchanged, and corrupting a 9-byte frame twice restores
it. -/
theorem C10_corrupt_frame_crc_witness :
    corrupt_frame_crc [1, 2, 3] = [1, 2, 3] ∧
    corrupt_frame_crc (corrupt_frame_crc (frameOf [1, 2, 3])) = frameOf [1, 2, 3] :=
  ⟨(C10_corrupt_frame_crc [1, 2, 3]).1 (by decide),
   ((C10_corrupt_frame_crc (frameOf [1, 2, 3])).2 (by decide)).2.2.2.2⟩

end Cockpit
